import Mathlib

/- Shallow embedding of the OpenRouter provider layer of the poml VSCode
extension: the authentication/model cache (`OpenRouterService`), the SSE
stream normalizer (the loop body of `handleStreamingResponse`), the
cancellation registry (`GenerationController`) and the fresh-copy accessor
(`getAvailableModels`).  Strings are modelled as `List Char`, timestamps as
`Nat` milliseconds, and the network as an explicit `Response` argument
together with a transport-call counter in the result. -/

/-! ### JSON values

Model of the JavaScript values produced by `JSON.parse` on the wire data
handled by the service (objects, arrays, strings with the basic escape
sequences, integer numbers, booleans, null). -/

inductive Json : Type where
  | null : Json
  | jbool : Bool → Json
  | jnum : Int → Json
  | jstr : List Char → Json
  | jarr : List Json → Json
  | jobj : List (List Char × Json) → Json

/-- Characters treated as insignificant whitespace by `JSON.parse`. -/
def isJsonWs (c : Char) : Bool :=
  c = ' ' || c = '\t' || c = '\n' || c = '\x0d'

def skipWs : List Char → List Char
  | [] => []
  | c :: rest => if isJsonWs c then skipWs rest else c :: rest

/-- The left and right curly brace characters (written via their codes so
that they can be used in patterns and comparisons). -/
def lbrace : Char := Char.ofNat 123

def rbrace : Char := Char.ofNat 125

/-- Value of a JSON escape sequence `\\c` (the `\\u` form is outside the
modelled subset). -/
def escChar (c : Char) : Option Char :=
  if c = '"' then some '"'
  else if c = '\\' then some '\\'
  else if c = '/' then some '/'
  else if c = 'b' then some (Char.ofNat 8)
  else if c = 'f' then some (Char.ofNat 12)
  else if c = 'n' then some '\n'
  else if c = 'r' then some (Char.ofNat 13)
  else if c = 't' then some '\t'
  else none

/-- Parse the body of a JSON string literal (after the opening quote),
returning the decoded characters and the input after the closing quote. -/
def parseStringBody : List Char → Option (List Char × List Char)
  | [] => none
  | c :: rest =>
    if c = '"' then some ([], rest)
    else if c = '\\' then
      match rest with
      | [] => none
      | e :: rest2 =>
        match escChar e, parseStringBody rest2 with
        | some ec, some (s, r) => some (ec :: s, r)
        | _, _ => none
    else
      match parseStringBody rest with
      | some (s, r) => some (c :: s, r)
      | none => none

/-- Split off a maximal run of decimal digits. -/
def takeDigits : List Char → List Char × List Char
  | [] => ([], [])
  | c :: rest =>
    if c.isDigit then
      let p := takeDigits rest
      (c :: p.1, p.2)
    else ([], c :: rest)

def digitsVal (ds : List Char) : Nat :=
  ds.foldl (fun a c => a * 10 + (c.toNat - 48)) 0

/-- Parse an integer JSON number (fractions and exponents are outside the
modelled subset; the stream frames and discovery payloads the claims are
about only use integers and strings). -/
def parseNumber (l : List Char) : Option (Int × List Char) :=
  match l with
  | '-' :: r =>
    match takeDigits r with
    | ([], _) => none
    | (ds, rest) => some (-(digitsVal ds : Int), rest)
  | _ =>
    match takeDigits l with
    | ([], _) => none
    | (ds, rest) => some ((digitsVal ds : Int), rest)

mutual

/-- Recursive-descent JSON value parser (fuel-indexed model of
`JSON.parse`). -/
def parseValue : Nat → List Char → Option (Json × List Char)
  | 0, _ => none
  | Nat.succ fuel, l =>
    match skipWs l with
    | [] => none
    | c :: rest =>
      if c = '"' then
        match parseStringBody rest with
        | some (s, r) => some (Json.jstr s, r)
        | none => none
      else if c = lbrace then
        match skipWs rest with
        | c2 :: r2 =>
          if c2 = rbrace then some (Json.jobj [], r2)
          else
            match parseMembers fuel (c2 :: r2) with
            | some (ms, r3) => some (Json.jobj ms, r3)
            | none => none
        | [] => none
      else if c = '[' then
        match skipWs rest with
        | c2 :: r2 =>
          if c2 = ']' then some (Json.jarr [], r2)
          else
            match parseElements fuel (c2 :: r2) with
            | some (vs, r3) => some (Json.jarr vs, r3)
            | none => none
        | [] => none
      else if c = 't' then
        match rest with
        | 'r' :: 'u' :: 'e' :: r => some (Json.jbool true, r)
        | _ => none
      else if c = 'f' then
        match rest with
        | 'a' :: 'l' :: 's' :: 'e' :: r => some (Json.jbool false, r)
        | _ => none
      else if c = 'n' then
        match rest with
        | 'u' :: 'l' :: 'l' :: r => some (Json.null, r)
        | _ => none
      else
        match parseNumber (c :: rest) with
        | some (n, r) => some (Json.jnum n, r)
        | none => none

/-- Parse the elements of a non-empty JSON array (after `[`). -/
def parseElements : Nat → List Char → Option (List Json × List Char)
  | 0, _ => none
  | Nat.succ fuel, l =>
    match parseValue fuel l with
    | none => none
    | some (v, r) =>
      match skipWs r with
      | c :: r2 =>
        if c = ',' then
          match parseElements fuel r2 with
          | some (vs, r3) => some (v :: vs, r3)
          | none => none
        else if c = ']' then some ([v], r2)
        else none
      | [] => none

/-- Parse the members of a non-empty JSON object (after the opening
brace). -/
def parseMembers : Nat → List Char → Option (List (List Char × Json) × List Char)
  | 0, _ => none
  | Nat.succ fuel, l =>
    match skipWs l with
    | c :: r =>
      if c = '"' then
        match parseStringBody r with
        | some (k, r2) =>
          match skipWs r2 with
          | c3 :: r3 =>
            if c3 = ':' then
              match parseValue fuel r3 with
              | none => none
              | some (v, r4) =>
                match skipWs r4 with
                | c5 :: r5 =>
                  if c5 = ',' then
                    match parseMembers fuel r5 with
                    | some (ms, r6) => some ((k, v) :: ms, r6)
                    | none => none
                  else if c5 = rbrace then some ([(k, v)], r5)
                  else none
                | [] => none
            else none
          | [] => none
        | none => none
      else none
    | [] => none

end

/-- Model of `JSON.parse`: parse a complete value, requiring only trailing
whitespace after it; `none` models a thrown `SyntaxError`. -/
def parseJson (l : List Char) : Option Json :=
  match parseValue (l.length + 1) l with
  | some (v, r) => if skipWs r = [] then some v else none
  | none => none

/-! ### JavaScript member access on parsed values

Models of the expression `parsed.choices[0]?.delta?.content` and of the
truthiness test `if (content)` from `handleStreamingResponse`.  `Except`
errors model thrown `TypeError`s (caught by the surrounding `try`). -/

/-- Object field lookup; with duplicate keys `JSON.parse` keeps the last
occurrence. -/
def lookupField (fields : List (List Char × Json)) (k : List Char) : Option Json :=
  match fields with
  | [] => none
  | (k2, v) :: rest =>
    match lookupField rest k with
    | some r => some r
    | none => if k2 = k then some v else none

/-- Plain member access `v.k` on a parsed JSON value: throws on `null`,
yields `undefined` (`none`) on non-objects. -/
def jsMember (v : Json) (k : List Char) : Except Unit (Option Json) :=
  match v with
  | Json.null => Except.error ()
  | Json.jobj fields => Except.ok (lookupField fields k)
  | _ => Except.ok none

/-- Index access `v[0]` on a possibly-undefined value: throws on
`undefined` and `null`. -/
def jsIndexZero (v : Option Json) : Except Unit (Option Json) :=
  match v with
  | none => Except.error ()
  | some Json.null => Except.error ()
  | some (Json.jarr xs) => Except.ok xs.head?
  | some (Json.jobj fields) => Except.ok (lookupField fields (("0").data))
  | some (Json.jstr s) => Except.ok (s.head?.map (fun c => Json.jstr [c]))
  | some (Json.jnum _) => Except.ok none
  | some (Json.jbool _) => Except.ok none

/-- Optional chaining `v?.k`: `undefined` on nullish receivers, field
lookup on objects, `undefined` otherwise. -/
def jsOptMember (v : Option Json) (k : List Char) : Option Json :=
  match v with
  | none => none
  | some Json.null => none
  | some (Json.jobj fields) => lookupField fields k
  | some _ => none

/-- JavaScript truthiness of a possibly-undefined JSON value. -/
def jsTruthy : Option Json → Bool
  | none => false
  | some Json.null => false
  | some (Json.jbool b) => b
  | some (Json.jnum n) => decide (n ≠ 0)
  | some (Json.jstr s) => !s.isEmpty
  | some (Json.jarr _) => true
  | some (Json.jobj _) => true

def choicesKey : List Char := ("choices").data

def deltaKey : List Char := ("delta").data

def contentKey : List Char := ("content").data

/-- The value yielded for one `data:` payload by the loop body of
`handleStreamingResponse`: `JSON.parse(data)` followed by
`parsed.choices[0]?.delta?.content`, emitted only when truthy.  `none`
covers both a caught exception (parse failure or `TypeError`) and a falsy
content. -/
def extractDelta (data : List Char) : Option Json :=
  match parseJson data with
  | none => none
  | some parsed =>
    match jsMember parsed choicesKey with
    | Except.error _ => none
    | Except.ok choicesV =>
      match jsIndexZero choicesV with
      | Except.error _ => none
      | Except.ok c0 =>
        let content := jsOptMember (jsOptMember c0 deltaKey) contentKey
        if jsTruthy content then content else none

/-! ### Stream normalizer

State machine of the `while` loop of
`OpenRouterService.handleStreamingResponse` (src/unnamed/part_000, lines
423-466): accumulate bytes in `buffer`, split on `'\n'`, keep the last
(possibly incomplete) line, process each complete line; `data: [DONE]`
returns from the generator. -/

structure NormState where
  buffer : List Char
  out : List Json
  done : Bool

/-- `buffer.split('\n')` followed by `buffer = lines.pop() || ''`:
complete lines and the retained remainder. -/
def splitLines : List Char → List (List Char) × List Char
  | [] => ([], [])
  | c :: rest =>
    if c = '\n' then
      ([] :: (splitLines rest).1, (splitLines rest).2)
    else
      match splitLines rest with
      | ([], r) => ([], c :: r)
      | (l :: ls, r) => ((c :: l) :: ls, r)

def dataLinePrefix : List Char := ("data: ").data

def doneToken : List Char := ("[DONE]").data

/-- Body of the `for (const line of lines)` loop: skip lines without the
`data: ` prefix, stop at the `[DONE]` sentinel, otherwise emit the parsed
delta content when present.  The flag records that the generator has
returned, after which remaining lines are not processed. -/
def lineStep (acc : List Json × Bool) (line : List Char) : List Json × Bool :=
  if acc.2 then acc
  else if dataLinePrefix.isPrefixOf line then
    let data := line.drop 6
    if data = doneToken then (acc.1, true)
    else
      match extractDelta data with
      | some v => (acc.1 ++ [v], false)
      | none => (acc.1, false)
  else acc

/-- One iteration of the read loop on an incoming chunk: append to the
buffer, split into lines, retain the incomplete tail, process the complete
lines.  A finished generator ignores further chunks. -/
def feedChunk (st : NormState) (chunk : List Char) : NormState :=
  if st.done then st
  else
    let p := splitLines (st.buffer ++ chunk)
    let r := p.1.foldl lineStep (st.out, false)
    ⟨p.2, r.1, r.2⟩

def initNormState : NormState := ⟨[], [], false⟩

/-- The fragment sequence produced by feeding the given chunks to the
stream normalizer (the trailing incomplete line is discarded when the
source ends, as in the code). -/
def normalizeChunks (chunks : List (List Char)) : List Json :=
  (chunks.foldl feedChunk initNormState).out

/-! ### OpenRouterService: authentication cache and model discovery

Embedding of `OpenRouterService` (src/unnamed/part_000).  The mutable
fields `availableModels`, `authenticationStatus`, `lastAuthCheck` form the
service state; workspace configuration is an explicit `Settings` argument;
`Date.now()` is the explicit `now` argument; and the single `fetch` of the
models endpoint is the explicit `Response` argument, counted in
`transportCalls`. -/

inductive AuthStatus : Type where
  | unknown : AuthStatus
  | authenticated : AuthStatus
  | unauthenticated : AuthStatus
deriving DecidableEq

/-- `OpenRouterSettings` from the source (the workspace configuration
values read by `getSettings`). -/
structure Settings where
  selectedModel : List Char
  authenticationStatus : AuthStatus
  apiKey : List Char

structure Pricing where
  prompt : List Char
  completion : List Char

/-- `OpenRouterModel`: the shape produced by the discovery mapping.  The
`top_provider` and `architecture` fields are copied verbatim from the
wire value, so they are kept as raw JSON here. -/
structure OpenRouterModel where
  id : List Char
  name : List Char
  description : Option (List Char)
  context_length : Int
  pricing : Pricing
  top_provider : Option Json
  architecture : Option Json

/-- The private mutable fields of the `OpenRouterService` singleton. -/
structure ServiceState where
  availableModels : List OpenRouterModel
  authenticationStatus : AuthStatus
  lastAuthCheck : Nat

/-- Initial field values of the service (`[]`, `'unknown'`, `0`). -/
def initServiceState : ServiceState := ⟨[], AuthStatus.unknown, 0⟩

/-- `AUTH_CACHE_DURATION = 5 * 60 * 1000` (5 minutes, in ms). -/
def AUTH_CACHE_DURATION : Nat := 5 * 60 * 1000

/-- Outcome of the single `fetch` of the models endpoint, as observed by
the service: an OK response with a JSON body, a non-OK response with a
status and body text, or a thrown error (carrying `error.message` when the
thrown value is an `Error`). -/
inductive Response : Type where
  | ok : Json → Response
  | notOk : Nat → List Char → Response
  | networkError : Option (List Char) → Response

/-- The return shape of `checkAuthenticationAndDiscoverModels`. -/
structure CheckResult where
  isAuthenticated : Bool
  models : List OpenRouterModel
  error : Option (List Char)

/-- Full observable outcome of one call: the returned value, the new
service state, the status written back to workspace configuration by
`updateAuthenticationStatus` (if any) and the number of transport calls
issued. -/
structure CheckOutcome where
  result : CheckResult
  state : ServiceState
  settingsWrite : Option AuthStatus
  transportCalls : Nat

def noApiKeyMsg : List Char :=
  ("No API key provided. Please set your OpenRouter API key in settings.").data

def invalidApiKeyMsg : List Char :=
  ("Invalid API key. Please check your OpenRouter API key.").data

def forbiddenMsg : List Char :=
  ("Access forbidden. Please check your OpenRouter account status.").data

def invalidFormatMsg : List Char :=
  ("Invalid response format from OpenRouter API").data

def defaultNetworkMsg : List Char :=
  ("Failed to connect to OpenRouter API").data

def apiErrorOpen : List Char := ("API error (").data

def apiErrorClose : List Char := ("): ").data

def natChars (n : Nat) : List Char := (Nat.repr n).data

/-- The message `API error (${response.status}): ${errorText}`. -/
def apiErrorMsg (status : Nat) (bodyText : List Char) : List Char :=
  apiErrorOpen ++ natChars status ++ apiErrorClose ++ bodyText

def dataKey : List Char := ("data").data

def idKey : List Char := ("id").data

def nameKey : List Char := ("name").data

def descriptionKey : List Char := ("description").data

def contextLengthKey : List Char := ("context_length").data

def pricingKey : List Char := ("pricing").data

def promptKey : List Char := ("prompt").data

def completionKey : List Char := ("completion").data

def topProviderKey : List Char := ("top_provider").data

def architectureKey : List Char := ("architecture").data

/-- Field lookup on a JSON value that may not be an object (plain `x.k`
where a missing field is `undefined`); `null` receivers are outside the
paths exercised here because the element was produced by `Array.isArray`
iteration. -/
def anyField (j : Json) (k : List Char) : Option Json :=
  match j with
  | Json.jobj fields => lookupField fields k
  | _ => none

/-- A field value that is a string, when present. -/
def strField (j : Json) (k : List Char) : Option (List Char) :=
  match anyField j k with
  | some (Json.jstr s) => some s
  | _ => none

/-- The `data.data.map((model: any) => ...)` conversion of one discovery
record (src/unnamed/part_000, lines 167-178), including the `||` fallbacks
(`model.name || model.id`, `model.context_length || 0`,
`model.pricing?.prompt || '0'`). -/
def mapJsonToModel (j : Json) : OpenRouterModel :=
  let idv := (strField j idKey).getD []
  let namev :=
    match strField j nameKey with
    | some s => if s.isEmpty then idv else s
    | none => idv
  let ctx : Int :=
    match anyField j contextLengthKey with
    | some (Json.jnum n) => n
    | _ => 0
  let promptv :=
    match jsOptMember (anyField j pricingKey) promptKey with
    | some (Json.jstr s) => if s.isEmpty then ("0").data else s
    | _ => ("0").data
  let completionv :=
    match jsOptMember (anyField j pricingKey) completionKey with
    | some (Json.jstr s) => if s.isEmpty then ("0").data else s
    | _ => ("0").data
  { id := idv
    name := namev
    description := strField j descriptionKey
    context_length := ctx
    pricing := ⟨promptv, completionv⟩
    top_provider := anyField j topProviderKey
    architecture := anyField j architectureKey }

/-- The check `!data.data || !Array.isArray(data.data)` (arrays are always
truthy): the `data` field of the response body when it is an array. -/
def dataField (body : Json) : Option (List Json) :=
  match body with
  | Json.jobj fields =>
    match lookupField fields dataKey with
    | some (Json.jarr xs) => some xs
    | _ => none
  | _ => none

/-- The cached-return condition of `checkAuthenticationAndDiscoverModels`
(src/unnamed/part_000, lines 105-109): not forced, cache within TTL,
in-memory status authenticated, models cached, and the configuration also
reports authenticated. -/
def usesCachedResult (st : ServiceState) (settings : Settings) (now : Nat)
    (forceRefresh : Bool) : Prop :=
  forceRefresh = false ∧
  now - st.lastAuthCheck < AUTH_CACHE_DURATION ∧
  st.authenticationStatus = AuthStatus.authenticated ∧
  0 < st.availableModels.length ∧
  settings.authenticationStatus = AuthStatus.authenticated

instance (st : ServiceState) (settings : Settings) (now : Nat) (fr : Bool) :
    Decidable (usesCachedResult st settings now fr) := by
  unfold usesCachedResult; infer_instance

/-- `OpenRouterService.checkAuthenticationAndDiscoverModels`
(src/unnamed/part_000, lines 82-203). -/
def checkAuthenticationAndDiscoverModels (st : ServiceState) (settings : Settings)
    (now : Nat) (forceRefresh : Bool) (resp : Response) : CheckOutcome :=
  if settings.apiKey = [] then
    { result := ⟨false, [], some noApiKeyMsg⟩
      state := { st with authenticationStatus := AuthStatus.unauthenticated }
      settingsWrite := some AuthStatus.unauthenticated
      transportCalls := 0 }
  else
    if usesCachedResult st settings now forceRefresh then
      { result := ⟨true, st.availableModels, none⟩
        state := st
        settingsWrite := none
        transportCalls := 0 }
    else
      let st1 :=
        if forceRefresh = false ∧
           now - st.lastAuthCheck < AUTH_CACHE_DURATION ∧
           settings.authenticationStatus = AuthStatus.authenticated ∧
           st.availableModels.length = 0
        then { st with authenticationStatus := AuthStatus.authenticated }
        else st
      match resp with
      | Response.notOk status bodyText =>
        let errorMessage :=
          if status = 401 then invalidApiKeyMsg
          else if status = 403 then forbiddenMsg
          else apiErrorMsg status bodyText
        { result := ⟨false, [], some errorMessage⟩
          state := { st1 with authenticationStatus := AuthStatus.unauthenticated }
          settingsWrite := some AuthStatus.unauthenticated
          transportCalls := 1 }
      | Response.ok body =>
        match dataField body with
        | some arr =>
          let models := arr.map mapJsonToModel
          { result := ⟨true, models, none⟩
            state := { availableModels := models
                       authenticationStatus := AuthStatus.authenticated
                       lastAuthCheck := now }
            settingsWrite := some AuthStatus.authenticated
            transportCalls := 1 }
        | none =>
          { result := ⟨false, [], some invalidFormatMsg⟩
            state := { st1 with authenticationStatus := AuthStatus.unauthenticated }
            settingsWrite := some AuthStatus.unauthenticated
            transportCalls := 1 }
      | Response.networkError m =>
        { result := ⟨false, [], some (m.getD defaultNetworkMsg)⟩
          state := { st1 with authenticationStatus := AuthStatus.unauthenticated }
          settingsWrite := some AuthStatus.unauthenticated
          transportCalls := 1 }

/-- A transport outcome on which the verification fails: rejected by the
backend, network failure, or a body without a `data` array. -/
def respFails : Response → Bool
  | Response.notOk _ _ => true
  | Response.networkError _ => true
  | Response.ok body => (dataField body).isNone

/-- `OpenRouterService.clearAuthenticationCache` (src/unnamed/part_000,
lines 248-252). -/
def clearAuthenticationCache (_st : ServiceState) : ServiceState :=
  ⟨[], AuthStatus.unknown, 0⟩

/-- The return shape of `quickSetupCheck` (`skipAuthCheck` is an optional
field). -/
structure QuickCheckResult where
  isReady : Bool
  needsApiKey : Bool
  needsAuthentication : Bool
  needsModelSelection : Bool
  skipAuthCheck : Option Bool

/-- `OpenRouterService.quickSetupCheck` (src/unnamed/part_000, lines
258-330).  The third component counts the invocations of
`checkAuthenticationAndDiscoverModels` it performs. -/
def quickSetupCheck (st : ServiceState) (settings : Settings) (now : Nat)
    (resp : Response) : QuickCheckResult × ServiceState × Nat :=
  let needsApiKey : Bool := settings.apiKey.isEmpty
  let needsModelSelection : Bool := settings.selectedModel.isEmpty
  if needsApiKey then
    (⟨false, true, true, true, none⟩, st, 0)
  else if settings.authenticationStatus = AuthStatus.authenticated ∧
          needsModelSelection = false then
    if st.availableModels.length = 0 then
      let o := checkAuthenticationAndDiscoverModels st settings now false resp
      (⟨o.result.isAuthenticated, false, !o.result.isAuthenticated, false,
        some o.result.isAuthenticated⟩, o.state, 1)
    else
      (⟨true, false, false, false, some true⟩, st, 0)
  else
    let needsAuthentication : Bool :=
      decide (settings.authenticationStatus ≠ AuthStatus.authenticated)
    let fallback : QuickCheckResult × ServiceState × Nat :=
      (⟨!needsApiKey && !needsAuthentication && !needsModelSelection,
        needsApiKey, needsAuthentication, needsModelSelection, none⟩, st, 0)
    if needsApiKey = false ∧ (needsAuthentication = true ∨ needsModelSelection = true) then
      if needsModelSelection = false ∧ needsAuthentication = true then
        let o := checkAuthenticationAndDiscoverModels st settings now false resp
        (⟨o.result.isAuthenticated, false, !o.result.isAuthenticated, false,
          some o.result.isAuthenticated⟩, o.state, 1)
      else fallback
    else fallback

/-! ### Reachable cache states

Sequences of the cache-mutating and read-only operations of the service,
for stating the invariant claims over every reachable state. -/

inductive CacheOp : Type where
  | verify : Settings → Nat → Bool → Response → CacheOp
  | clear : CacheOp
  | getModels : CacheOp
  | getStatus : CacheOp

def applyCacheOp (st : ServiceState) : CacheOp → ServiceState
  | CacheOp.verify settings now fr resp =>
    (checkAuthenticationAndDiscoverModels st settings now fr resp).state
  | CacheOp.clear => clearAuthenticationCache st
  | CacheOp.getModels => st
  | CacheOp.getStatus => st

def runCacheOps (ops : List CacheOp) : ServiceState :=
  ops.foldl applyCacheOp initServiceState

/-! ### GenerationController: cancellation registry

Embedding of `GenerationController`
(src/packages/poml-vscode/command/openrouterCommand.ts, lines 670-694).
`AbortController` objects are mutable shared cells, so they are modelled
through an explicit store: `signals` holds the aborted flag of every
controller ever allocated (indexed by allocation order), and `registry`
holds the indices currently in the controller list. -/

structure RegistryState where
  signals : List Bool
  registry : List Nat

def initRegistry : RegistryState := ⟨[], []⟩

/-- `GenerationController.getNewAbortController`: allocate a fresh,
untriggered controller, append it to the list, and return it (its store
index). -/
def getNewAbortController (st : RegistryState) : RegistryState × Nat :=
  (⟨st.signals ++ [false], st.registry ++ [st.signals.length]⟩, st.signals.length)

/-- `GenerationController.abortAll`: call `controller.abort()` on every
registered controller, then clear the list
(`abortControllers.length = 0`). -/
def abortAll (st : RegistryState) : RegistryState :=
  ⟨st.registry.foldl (fun s i => s.set i true) st.signals, []⟩

inductive RegOp : Type where
  | register : RegOp
  | cancelAll : RegOp

def regStep (st : RegistryState) : RegOp → RegistryState
  | RegOp.register => (getNewAbortController st).1
  | RegOp.cancelAll => abortAll st

def runRegOps (ops : List RegOp) : RegistryState :=
  ops.foldl regStep initRegistry

/-! ### getAvailableModels: fresh-copy accessor

`OpenRouterService.getAvailableModels` returns `[...this.availableModels]`
(src/unnamed/part_000, lines 205-210).  JavaScript arrays are mutable
references, so the accessor is modelled over an explicit store of arrays:
the service holds a reference to its cached array, and the spread
expression allocates a fresh array with the same contents. -/

abbrev ModelHeap : Type := List (List OpenRouterModel)

def heapGet (h : ModelHeap) (r : Nat) : List OpenRouterModel :=
  List.getD h r []

def heapAlloc (h : ModelHeap) (v : List OpenRouterModel) : ModelHeap × Nat :=
  (h ++ [v], h.length)

def heapWrite (h : ModelHeap) (r : Nat) (v : List OpenRouterModel) : ModelHeap :=
  h.set r v

/-- The reference the service holds to its private `availableModels`
array. -/
structure ServiceRef where
  modelsRef : Nat

/-- `getAvailableModels`: `return [...this.availableModels]` — allocate a
fresh array holding the current contents of the cached array and return a
reference to it. -/
def getAvailableModels (h : ModelHeap) (svc : ServiceRef) : ModelHeap × Nat :=
  heapAlloc h (heapGet h svc.modelsRef)

/-! ### Concrete inputs used in the scenario and counterexample
theorems -/

/-- The frame `data: {"choices":[{"delta":{"content":"Hello"}}]}` followed
by a newline. -/
def frameHello : List Char :=
  ("data: \x7b\"choices\":[\x7b\"delta\":\x7b\"content\":\"Hello\"\x7d\x7d]\x7d\n").data

/-- The frame `data: {"choices":[{"delta":{"content":" world"}}]}` followed
by a newline. -/
def frameWorld : List Char :=
  ("data: \x7b\"choices\":[\x7b\"delta\":\x7b\"content\":\" world\"\x7d\x7d]\x7d\n").data

/-- The frame `data: [DONE]` followed by a newline. -/
def frameDone : List Char :=
  ("data: [DONE]\n").data

/-- A discovery body `{"data":[{"id":"m"}]}` with one model record. -/
def goodBody : Json :=
  Json.jobj [(dataKey, Json.jarr [Json.jobj [(idKey, Json.jstr (("m").data))]])]

/-- The model produced for the record `{"id":"m"}` by the discovery
mapping. -/
def cexModel : OpenRouterModel :=
  { id := ("m").data
    name := ("m").data
    description := none
    context_length := 0
    pricing := ⟨("0").data, ("0").data⟩
    top_provider := none
    architecture := none }

/-- A configuration with a credential and a selected model whose stored
authentication status is `authenticated`. -/
def settingsAuthed : Settings :=
  ⟨("m").data, AuthStatus.authenticated, ("k").data⟩

/-- A configuration with a credential and a selected model whose stored
authentication status is `unknown`. -/
def settingsUnknown : Settings :=
  ⟨("m").data, AuthStatus.unknown, ("k").data⟩

/-- A configuration with no API key. -/
def settingsNoKey : Settings :=
  ⟨[], AuthStatus.unknown, []⟩

/-- A service state with a freshly verified non-empty model cache. -/
def stateCached : ServiceState :=
  ⟨[cexModel], AuthStatus.authenticated, 0⟩

/-- Two normalizer states that produce the same observable behaviour:
equal emitted fragments, equal finished-flags, and equal buffers while the
generator is still live. -/
def NormAgrees (s t : NormState) : Prop :=
  s.out = t.out ∧ s.done = t.done ∧ (s.done = false → s.buffer = t.buffer)

/-- Well-formedness of the cancellation registry store: registered indices
are allocated, and every allocated controller is either still registered
or already aborted (it was aborted when an `abortAll` cleared it out). -/
def RegInv (st : RegistryState) : Prop :=
  (∀ i ∈ st.registry, i < st.signals.length) ∧
  (∀ i, i < st.signals.length → i ∈ st.registry ∨ st.signals.getD i false = true)

/-! ## Theorems -/

/-! ### Stream normalizer: boundary insensitivity (C4 machinery) -/

theorem splitLines_append (a b : List Char) :
    splitLines (a ++ b) =
      ((splitLines a).1 ++ (splitLines ((splitLines a).2 ++ b)).1,
       (splitLines ((splitLines a).2 ++ b)).2) := by
  induction a with
  | nil => simp [splitLines]
  | cons c a ih =>
    by_cases hc : c = '\n'
    · subst hc
      simp [splitLines, ih]
    · rcases hq : splitLines a with ⟨ql, qr⟩
      have ih' := ih
      rw [hq] at ih'
      cases ql with
      | nil =>
        rcases hr : splitLines (qr ++ b) with ⟨rl, rr⟩
        rw [hr] at ih'
        simp at ih'
        cases rl with
        | nil => simp [splitLines, hc, hq, ih', hr]
        | cons x xs => simp [splitLines, hc, hq, ih', hr]
      | cons l ls =>
        rcases hr : splitLines (qr ++ b) with ⟨rl, rr⟩
        rw [hr] at ih'
        simp at ih'
        simp [splitLines, hc, hq, ih', hr]

theorem splitLines_rem_noNL : ∀ l : List Char, '\n' ∉ (splitLines l).2 := by
  intro l
  induction l with
  | nil => simp [splitLines]
  | cons c rest ih =>
    by_cases hc : c = '\n'
    · subst hc; simpa [splitLines] using ih
    · rcases hq : splitLines rest with ⟨ql, qr⟩
      rw [hq] at ih
      simp at ih
      cases ql with
      | nil =>
        simp [splitLines, hc, hq, List.mem_cons]
        exact ⟨fun h => hc h.symm, ih⟩
      | cons x xs => simpa [splitLines, hc, hq] using ih

theorem splitLines_of_noNL (l : List Char) (h : '\n' ∉ l) : splitLines l = ([], l) := by
  induction l with
  | nil => rfl
  | cons c rest ih =>
    have hc : ¬(c = '\n') := fun e => h (by simp [e])
    have h' : '\n' ∉ rest := fun m => h (List.mem_cons_of_mem _ m)
    simp [splitLines, hc, ih h']

theorem lineStep_done (o : List Json) (l : List Char) : lineStep (o, true) l = (o, true) := by
  simp [lineStep]

theorem foldl_lineStep_done (ls : List (List Char)) (o : List Json) :
    ls.foldl lineStep (o, true) = (o, true) := by
  induction ls with
  | nil => rfl
  | cons l ls ih => rw [List.foldl_cons, lineStep_done]; exact ih

theorem feedChunk_done (st : NormState) (h : st.done = true) (c : List Char) :
    feedChunk st c = st := by
  simp [feedChunk, h]

theorem feedChunk_not_done (st : NormState) (h : st.done = false) (c : List Char) :
    feedChunk st c = ⟨(splitLines (st.buffer ++ c)).2,
      ((splitLines (st.buffer ++ c)).1.foldl lineStep (st.out, false)).1,
      ((splitLines (st.buffer ++ c)).1.foldl lineStep (st.out, false)).2⟩ := by
  simp [feedChunk, h]

theorem normAgrees_rfl (s : NormState) : NormAgrees s s := ⟨rfl, rfl, fun _ => rfl⟩

theorem normAgrees_trans {s t u : NormState} (h1 : NormAgrees s t) (h2 : NormAgrees t u) :
    NormAgrees s u :=
  ⟨h1.1.trans h2.1, h1.2.1.trans h2.2.1,
   fun hf => (h1.2.2 hf).trans (h2.2.2 (h1.2.1 ▸ hf))⟩

theorem feedChunk_append (st : NormState) (a b : List Char) :
    NormAgrees (feedChunk (feedChunk st a) b) (feedChunk st (a ++ b)) := by
  cases hd : st.done
  case true =>
    rw [feedChunk_done st hd a, feedChunk_done st hd b, feedChunk_done st hd (a ++ b)]
    exact normAgrees_rfl st
  case false =>
    have hsplit := splitLines_append (st.buffer ++ a) b
    rw [List.append_assoc] at hsplit
    rw [feedChunk_not_done st hd a, feedChunk_not_done st hd (a ++ b), hsplit]
    rcases hq : splitLines (st.buffer ++ a) with ⟨ql, qr⟩
    simp only [hq]
    rcases hR : ql.foldl lineStep (st.out, false) with ⟨o1, d1⟩
    simp only [List.foldl_append, hR]
    cases d1
    case false =>
      rw [feedChunk_not_done _ rfl b]
      simp [hR]
      exact normAgrees_rfl _
    case true =>
      rw [feedChunk_done _ rfl b]
      constructor
      · simp [foldl_lineStep_done]
      constructor
      · simp [foldl_lineStep_done]
      · intro hf; simp at hf

theorem feedChunk_buffer_noNL (st : NormState) (h : '\n' ∉ st.buffer) (c : List Char) :
    '\n' ∉ (feedChunk st c).buffer := by
  cases hd : st.done
  case true => rw [feedChunk_done st hd]; exact h
  case false =>
    rw [feedChunk_not_done st hd]
    exact splitLines_rem_noNL (st.buffer ++ c)

theorem feedChunk_nil (st : NormState) (h : '\n' ∉ st.buffer) : feedChunk st [] = st := by
  cases hd : st.done
  case true => exact feedChunk_done st hd []
  case false =>
    rw [feedChunk_not_done st hd]
    rw [List.append_nil, splitLines_of_noNL st.buffer h]
    cases st
    simp_all

theorem normAgrees_feedChunk {s t : NormState} (h : NormAgrees s t) (c : List Char) :
    NormAgrees (feedChunk s c) (feedChunk t c) := by
  obtain ⟨h1, h2, h3⟩ := h
  cases hsd : s.done
  case false =>
    have : s = t := by
      cases s; cases t
      simp_all
    rw [this]
    exact normAgrees_rfl _
  case true =>
    have htd : t.done = true := h2 ▸ hsd
    rw [feedChunk_done s hsd, feedChunk_done t htd]
    exact ⟨h1, h2, h3⟩

theorem foldl_feedChunk_join (chunks : List (List Char)) (st : NormState)
    (h : '\n' ∉ st.buffer) :
    NormAgrees (chunks.foldl feedChunk st) (feedChunk st chunks.flatten) := by
  induction chunks generalizing st with
  | nil =>
    rw [List.foldl_nil, List.flatten_nil, feedChunk_nil st h]
    exact normAgrees_rfl st
  | cons c cs ih =>
    rw [List.foldl_cons, List.flatten_cons]
    have step1 := ih (feedChunk st c) (feedChunk_buffer_noNL st h c)
    exact normAgrees_trans step1 (feedChunk_append st c cs.flatten)

/-- C4: the stream normalizer is insensitive to chunk boundaries — feeding
any splitting of a byte sequence into chunks (in particular any splitting
of a well-formed SSE sequence into two or more pieces) produces exactly
the same fragment sequence as feeding the concatenated sequence as one
chunk. -/
theorem normalizeChunks_boundary_insensitive (chunks : List (List Char)) :
    normalizeChunks chunks = normalizeChunks [chunks.flatten] := by
  have h := foldl_feedChunk_join chunks initNormState (by simp [initNormState])
  exact h.1

/-! ### Stream normalizer: frame semantics (C5) -/

theorem isPrefixOf_append_self (p l : List Char) : p.isPrefixOf (p ++ l) = true := by
  induction p with
  | nil => simp [List.isPrefixOf]
  | cons a as ih => simp [List.isPrefixOf, ih]

theorem drop_dataLinePrefix (data : List Char) :
    (dataLinePrefix ++ data).drop 6 = data := by
  have h : dataLinePrefix.length = 6 := rfl
  rw [← h]
  exact List.drop_left dataLinePrefix data

theorem lineStep_data (o : List Json) (data : List Char) :
    lineStep (o, false) (dataLinePrefix ++ data) =
      (if data = doneToken then (o, true)
       else match extractDelta data with
            | some v => (o ++ [v], false)
            | none => (o, false)) := by
  simp [lineStep, isPrefixOf_append_self, drop_dataLinePrefix]

theorem extractDelta_doneToken : extractDelta doneToken = none := rfl

/-- C5: (i) feeding the frames `data: {"choices":[{"delta":{"content":"Hello"}}]}`,
`data: {"choices":[{"delta":{"content":" world"}}]}`, `data: [DONE]` emits
exactly `"Hello"` then `" world"` and finishes cleanly; (ii) a `data:` line
carrying the `[DONE]` sentinel ends the sequence immediately, ignoring all
later lines; (iii) a `data:` line whose payload fails to parse is skipped
without ending or aborting the stream; (iv) parsed delta contents are
emitted in input order. -/
theorem handleStreaming_frame_semantics :
    (normalizeChunks [frameHello, frameWorld, frameDone] =
        [Json.jstr (("Hello").data), Json.jstr ((" world").data)] ∧
      ([frameHello, frameWorld, frameDone].foldl feedChunk initNormState).done = true) ∧
    (∀ (o : List Json) (ls : List (List Char)),
      ((dataLinePrefix ++ doneToken) :: ls).foldl lineStep (o, false) = (o, true)) ∧
    (∀ (o : List Json) (data : List Char), data ≠ doneToken → parseJson data = none →
      lineStep (o, false) (dataLinePrefix ++ data) = (o, false)) ∧
    (∀ (o : List Json) (ds : List (List Char)) (vs : List Json),
      ds.map extractDelta = vs.map some →
      (ds.map (fun d => dataLinePrefix ++ d)).foldl lineStep (o, false) = (o ++ vs, false)) := by
  refine ⟨⟨rfl, rfl⟩, ?_, ?_, ?_⟩
  · intro o ls
    rw [List.foldl_cons, lineStep_data]
    simp [foldl_lineStep_done]
  · intro o data hne hparse
    rw [lineStep_data]
    rw [if_neg hne]
    unfold extractDelta
    rw [hparse]
  · intro o ds
    induction ds generalizing o with
    | nil =>
      intro vs h
      cases vs with
      | nil => simp
      | cons v vs => simp at h
    | cons d ds ih =>
      intro vs h
      cases vs with
      | nil => simp at h
      | cons v vs =>
        simp only [List.map_cons, List.cons.injEq] at h
        obtain ⟨h1, h2⟩ := h
        have hne : d ≠ doneToken := by
          intro e
          rw [e, extractDelta_doneToken] at h1
          exact Option.noConfusion h1
        rw [List.map_cons, List.foldl_cons, lineStep_data, if_neg hne, h1]
        have := ih (o ++ [v]) vs h2
        rw [this]
        simp

theorem handleStreaming_frame_semantics_witness :
    (normalizeChunks [frameHello, frameWorld, frameDone] =
        [Json.jstr (("Hello").data), Json.jstr ((" world").data)]) ∧
    (((dataLinePrefix ++ doneToken) :: [(("x").data)]).foldl lineStep ([], false) = ([], true)) ∧
    (lineStep ([], false) (dataLinePrefix ++ (("x").data)) = ([], false)) ∧
    (([frameHello.drop 6 |>.dropLast].map (fun d => dataLinePrefix ++ d)).foldl
        lineStep ([], false) = ([Json.jstr (("Hello").data)], false)) :=
  ⟨handleStreaming_frame_semantics.1.1,
   handleStreaming_frame_semantics.2.1 [] [(("x").data)],
   handleStreaming_frame_semantics.2.2.1 [] (("x").data) (by decide) rfl,
   handleStreaming_frame_semantics.2.2.2 [] [frameHello.drop 6 |>.dropLast]
     [Json.jstr (("Hello").data)] rfl⟩

/-! ### Authentication cache helper lemmas -/

theorem checkAuth_noKey (st : ServiceState) (settings : Settings) (now : Nat)
    (fr : Bool) (resp : Response) (h : settings.apiKey = []) :
    checkAuthenticationAndDiscoverModels st settings now fr resp =
      { result := ⟨false, [], some noApiKeyMsg⟩
        state := { st with authenticationStatus := AuthStatus.unauthenticated }
        settingsWrite := some AuthStatus.unauthenticated
        transportCalls := 0 } := by
  simp [checkAuthenticationAndDiscoverModels, h]

theorem checkAuth_cached (st : ServiceState) (settings : Settings) (now : Nat)
    (fr : Bool) (resp : Response) (h1 : settings.apiKey ≠ [])
    (h2 : usesCachedResult st settings now fr) :
    checkAuthenticationAndDiscoverModels st settings now fr resp =
      { result := ⟨true, st.availableModels, none⟩
        state := st
        settingsWrite := none
        transportCalls := 0 } := by
  simp [checkAuthenticationAndDiscoverModels, h1, h2]

theorem checkAuth_calls_of_not_cached (st : ServiceState) (settings : Settings)
    (now : Nat) (fr : Bool) (resp : Response) (h1 : settings.apiKey ≠ [])
    (h2 : ¬ usesCachedResult st settings now fr) :
    (checkAuthenticationAndDiscoverModels st settings now fr resp).transportCalls = 1 := by
  unfold checkAuthenticationAndDiscoverModels
  rw [if_neg h1, if_neg h2]
  cases resp with
  | ok body => cases hdf : dataField body <;> simp [hdf]
  | notOk status bodyText => simp
  | networkError m => simp

theorem st1_models (st : ServiceState) (P : Prop) [Decidable P] :
    (if P then { st with authenticationStatus := AuthStatus.authenticated } else st).availableModels
      = st.availableModels := by split <;> rfl

theorem st1_last (st : ServiceState) (P : Prop) [Decidable P] :
    (if P then { st with authenticationStatus := AuthStatus.authenticated } else st).lastAuthCheck
      = st.lastAuthCheck := by split <;> rfl

theorem checkAuth_failure_outcome (st : ServiceState) (settings : Settings)
    (now : Nat) (fr : Bool) (resp : Response) (h1 : settings.apiKey ≠ [])
    (h2 : ¬ usesCachedResult st settings now fr) (h3 : respFails resp = true) :
    (checkAuthenticationAndDiscoverModels st settings now fr resp).result.isAuthenticated = false ∧
    (checkAuthenticationAndDiscoverModels st settings now fr resp).result.models = [] ∧
    (checkAuthenticationAndDiscoverModels st settings now fr resp).result.error.isSome = true ∧
    (checkAuthenticationAndDiscoverModels st settings now fr resp).state.authenticationStatus =
      AuthStatus.unauthenticated ∧
    (checkAuthenticationAndDiscoverModels st settings now fr resp).state.availableModels =
      st.availableModels ∧
    (checkAuthenticationAndDiscoverModels st settings now fr resp).state.lastAuthCheck =
      st.lastAuthCheck := by
  unfold checkAuthenticationAndDiscoverModels
  rw [if_neg h1, if_neg h2]
  cases resp with
  | ok body =>
    unfold respFails at h3
    rw [Option.isNone_iff_eq_none] at h3
    simp [h3, st1_models, st1_last]
  | notOk status bodyText => simp [st1_models, st1_last]
  | networkError m => simp [st1_models, st1_last]

/-- C1 (counterexample): with a credential present and a cache entry that
is authenticated, non-empty and within TTL, the call with
`forceRefresh = false` can still issue a transport call — the code
additionally requires the configuration-stored status to be
`authenticated`, and here it is `unknown`. -/
theorem checkAuth_cached_conditions_insufficient :
    stateCached.authenticationStatus = AuthStatus.authenticated ∧
    0 < stateCached.availableModels.length ∧
    1 - stateCached.lastAuthCheck < AUTH_CACHE_DURATION ∧
    settingsUnknown.apiKey ≠ [] ∧
    (checkAuthenticationAndDiscoverModels stateCached settingsUnknown 1 false
        (Response.notOk 500 [])).transportCalls = 1 :=
  ⟨rfl, by decide, by decide, by decide, rfl⟩

/-- C1 (amended): with a credential present, `verify(forceRefresh=false)`
issues zero transport calls and returns the cached models exactly when the
cached entry is authenticated with non-empty models within TTL **and** the
configuration-stored status is also `authenticated`; in every other case
it issues exactly one transport call. -/
theorem checkAuth_transport_characterization (st : ServiceState)
    (settings : Settings) (now : Nat) (fr : Bool) (resp : Response)
    (hkey : settings.apiKey ≠ []) :
    (usesCachedResult st settings now fr →
      (checkAuthenticationAndDiscoverModels st settings now fr resp).transportCalls = 0 ∧
      (checkAuthenticationAndDiscoverModels st settings now fr resp).result.isAuthenticated = true ∧
      (checkAuthenticationAndDiscoverModels st settings now fr resp).result.models =
        st.availableModels ∧
      (checkAuthenticationAndDiscoverModels st settings now fr resp).state = st) ∧
    (¬ usesCachedResult st settings now fr →
      (checkAuthenticationAndDiscoverModels st settings now fr resp).transportCalls = 1) := by
  constructor
  · intro hc
    rw [checkAuth_cached st settings now fr resp hkey hc]
    exact ⟨rfl, rfl, rfl, rfl⟩
  · intro hc
    exact checkAuth_calls_of_not_cached st settings now fr resp hkey hc

theorem checkAuth_transport_characterization_witness :
    ((checkAuthenticationAndDiscoverModels stateCached settingsAuthed 1 false
        (Response.notOk 500 [])).transportCalls = 0 ∧
      (checkAuthenticationAndDiscoverModels stateCached settingsAuthed 1 false
        (Response.notOk 500 [])).result.isAuthenticated = true ∧
      (checkAuthenticationAndDiscoverModels stateCached settingsAuthed 1 false
        (Response.notOk 500 [])).result.models = stateCached.availableModels ∧
      (checkAuthenticationAndDiscoverModels stateCached settingsAuthed 1 false
        (Response.notOk 500 [])).state = stateCached) ∧
    (checkAuthenticationAndDiscoverModels stateCached settingsUnknown 1 false
        (Response.notOk 500 [])).transportCalls = 1 :=
  ⟨(checkAuth_transport_characterization stateCached settingsAuthed 1 false
      (Response.notOk 500 []) (by decide)).1 (by unfold usesCachedResult; decide),
   (checkAuth_transport_characterization stateCached settingsUnknown 1 false
      (Response.notOk 500 []) (by decide)).2 (by unfold usesCachedResult; decide)⟩

/-- C2 (counterexample): a failing refresh (HTTP 401) sets the cache
status to `unauthenticated` but does **not** clear the cached model list:
the entry still holds the previously discovered model. -/
theorem checkAuth_failure_keeps_models :
    (checkAuthenticationAndDiscoverModels stateCached settingsAuthed 1 true
        (Response.notOk 401 [])).state.availableModels = [cexModel] ∧
    (checkAuthenticationAndDiscoverModels stateCached settingsAuthed 1 true
        (Response.notOk 401 [])).state.availableModels ≠ [] ∧
    (checkAuthenticationAndDiscoverModels stateCached settingsAuthed 1 true
        (Response.notOk 401 [])).state.authenticationStatus = AuthStatus.unauthenticated ∧
    (checkAuthenticationAndDiscoverModels stateCached settingsAuthed 1 true
        (Response.notOk 401 [])).result.error.isSome = true := by
  refine ⟨rfl, ?_, rfl, rfl⟩
  intro h
  rw [show (checkAuthenticationAndDiscoverModels stateCached settingsAuthed 1 true
      (Response.notOk 401 [])).state.availableModels = [cexModel] from rfl] at h
  exact List.cons_ne_nil _ _ h

/-- C2 (amended): every failing execution of verify (rejected credential,
network failure, or malformed response) leaves the cache status
`unauthenticated` and returns a result with an empty model list and a
human-readable reason; the cached model list itself is left unchanged
rather than cleared. -/
theorem checkAuth_failure_invalidates_status (st : ServiceState)
    (settings : Settings) (now : Nat) (fr : Bool) (resp : Response)
    (h1 : settings.apiKey ≠ []) (h2 : ¬ usesCachedResult st settings now fr)
    (h3 : respFails resp = true) :
    (checkAuthenticationAndDiscoverModels st settings now fr resp).result.isAuthenticated = false ∧
    (checkAuthenticationAndDiscoverModels st settings now fr resp).result.models = [] ∧
    (checkAuthenticationAndDiscoverModels st settings now fr resp).result.error.isSome = true ∧
    (checkAuthenticationAndDiscoverModels st settings now fr resp).state.authenticationStatus =
      AuthStatus.unauthenticated ∧
    (checkAuthenticationAndDiscoverModels st settings now fr resp).state.availableModels =
      st.availableModels :=
  ⟨(checkAuth_failure_outcome st settings now fr resp h1 h2 h3).1,
   (checkAuth_failure_outcome st settings now fr resp h1 h2 h3).2.1,
   (checkAuth_failure_outcome st settings now fr resp h1 h2 h3).2.2.1,
   (checkAuth_failure_outcome st settings now fr resp h1 h2 h3).2.2.2.1,
   (checkAuth_failure_outcome st settings now fr resp h1 h2 h3).2.2.2.2.1⟩

theorem checkAuth_failure_invalidates_status_witness :
    (checkAuthenticationAndDiscoverModels stateCached settingsAuthed 1 true
        (Response.notOk 401 [])).result.isAuthenticated = false ∧
    (checkAuthenticationAndDiscoverModels stateCached settingsAuthed 1 true
        (Response.notOk 401 [])).result.models = [] ∧
    (checkAuthenticationAndDiscoverModels stateCached settingsAuthed 1 true
        (Response.notOk 401 [])).result.error.isSome = true ∧
    (checkAuthenticationAndDiscoverModels stateCached settingsAuthed 1 true
        (Response.notOk 401 [])).state.authenticationStatus = AuthStatus.unauthenticated ∧
    (checkAuthenticationAndDiscoverModels stateCached settingsAuthed 1 true
        (Response.notOk 401 [])).state.availableModels = stateCached.availableModels :=
  checkAuth_failure_invalidates_status stateCached settingsAuthed 1 true
    (Response.notOk 401 []) (by decide)
    (by intro h; exact Bool.noConfusion (h.1)) rfl

/-- C6 (counterexample): with no API key configured,
`verify(forceRefresh=true)` issues zero transport calls, not one. -/
theorem checkAuth_forceRefresh_no_key_no_call :
    (checkAuthenticationAndDiscoverModels initServiceState settingsNoKey 0 true
        (Response.notOk 500 [])).transportCalls = 0 := rfl

/-- C6 (amended): with a credential present, `verify(forceRefresh=true)`
issues exactly one transport call regardless of cache state. -/
theorem checkAuth_forceRefresh_one_call (st : ServiceState) (settings : Settings)
    (now : Nat) (resp : Response) (hkey : settings.apiKey ≠ []) :
    (checkAuthenticationAndDiscoverModels st settings now true resp).transportCalls = 1 :=
  checkAuth_calls_of_not_cached st settings now true resp hkey
    (fun h => Bool.noConfusion h.1)

theorem checkAuth_forceRefresh_one_call_witness :
    (checkAuthenticationAndDiscoverModels stateCached settingsAuthed 1 true
        (Response.ok goodBody)).transportCalls = 1 :=
  checkAuth_forceRefresh_one_call stateCached settingsAuthed 1
    (Response.ok goodBody) (by decide)

/-- C9: on a non-200 discovery response the result is not authenticated
with empty models, the cache status becomes `unauthenticated` (and is
written back), 401 yields the invalid-credential reason, 403 the
forbidden reason, and any other status the generic message
`API error (status): body`, which carries the status code and the body
text. -/
theorem checkAuth_non200_taxonomy (st : ServiceState) (settings : Settings)
    (now : Nat) (fr : Bool) (status : Nat) (bodyText : List Char)
    (h1 : settings.apiKey ≠ []) (h2 : ¬ usesCachedResult st settings now fr) :
    (checkAuthenticationAndDiscoverModels st settings now fr
        (Response.notOk status bodyText)).result.isAuthenticated = false ∧
    (checkAuthenticationAndDiscoverModels st settings now fr
        (Response.notOk status bodyText)).result.models = [] ∧
    (checkAuthenticationAndDiscoverModels st settings now fr
        (Response.notOk status bodyText)).state.authenticationStatus =
      AuthStatus.unauthenticated ∧
    (checkAuthenticationAndDiscoverModels st settings now fr
        (Response.notOk status bodyText)).settingsWrite =
      some AuthStatus.unauthenticated ∧
    (status = 401 →
      (checkAuthenticationAndDiscoverModels st settings now fr
          (Response.notOk status bodyText)).result.error = some invalidApiKeyMsg) ∧
    (status = 403 →
      (checkAuthenticationAndDiscoverModels st settings now fr
          (Response.notOk status bodyText)).result.error = some forbiddenMsg) ∧
    (status ≠ 401 → status ≠ 403 →
      (checkAuthenticationAndDiscoverModels st settings now fr
          (Response.notOk status bodyText)).result.error =
        some (apiErrorOpen ++ natChars status ++ apiErrorClose ++ bodyText)) := by
  unfold checkAuthenticationAndDiscoverModels
  rw [if_neg h1, if_neg h2]
  refine ⟨rfl, rfl, rfl, rfl, ?_, ?_, ?_⟩
  · intro h; subst h; rfl
  · intro h; subst h; rfl
  · intro h401 h403
    simp [h401, h403, apiErrorMsg]

theorem checkAuth_non200_taxonomy_witness :
    (checkAuthenticationAndDiscoverModels stateCached settingsAuthed 1 true
        (Response.notOk 500 (("oops").data))).result.isAuthenticated = false ∧
    (checkAuthenticationAndDiscoverModels stateCached settingsAuthed 1 true
        (Response.notOk 500 (("oops").data))).state.authenticationStatus =
      AuthStatus.unauthenticated ∧
    (checkAuthenticationAndDiscoverModels stateCached settingsAuthed 1 true
        (Response.notOk 500 (("oops").data))).result.error =
      some (apiErrorOpen ++ natChars 500 ++ apiErrorClose ++ (("oops").data)) :=
  ⟨(checkAuth_non200_taxonomy stateCached settingsAuthed 1 true 500 (("oops").data)
      (by decide) (by unfold usesCachedResult; decide)).1,
   (checkAuth_non200_taxonomy stateCached settingsAuthed 1 true 500 (("oops").data)
      (by decide) (by unfold usesCachedResult; decide)).2.2.1,
   (checkAuth_non200_taxonomy stateCached settingsAuthed 1 true 500 (("oops").data)
      (by decide) (by unfold usesCachedResult; decide)).2.2.2.2.2.2
     (by decide) (by decide)⟩

/-! ### Reachable cache states (C3) -/

theorem checkAuth_state_status_of_fetch (st : ServiceState) (settings : Settings)
    (now : Nat) (fr : Bool) (resp : Response) (h1 : settings.apiKey ≠ [])
    (h2 : ¬ usesCachedResult st settings now fr) :
    (checkAuthenticationAndDiscoverModels st settings now fr resp).state.authenticationStatus =
        AuthStatus.authenticated ∨
    (checkAuthenticationAndDiscoverModels st settings now fr resp).state.authenticationStatus =
        AuthStatus.unauthenticated := by
  unfold checkAuthenticationAndDiscoverModels
  rw [if_neg h1, if_neg h2]
  cases resp with
  | ok body => cases hdf : dataField body <;> simp [hdf]
  | notOk status bodyText => simp
  | networkError m => simp

/-- C3 (counterexample): the state reached by a successful verification
followed by a failing forced refresh has a non-empty cached model list
while its status is `unauthenticated`, not `authenticated`. -/
theorem cache_invariant_counterexample :
    (runCacheOps [CacheOp.verify settingsAuthed 1 true (Response.ok goodBody),
        CacheOp.verify settingsAuthed 2 true (Response.notOk 401 [])]).availableModels ≠ [] ∧
    (runCacheOps [CacheOp.verify settingsAuthed 1 true (Response.ok goodBody),
        CacheOp.verify settingsAuthed 2 true (Response.notOk 401 [])]).authenticationStatus ≠
      AuthStatus.authenticated ∧
    (runCacheOps [CacheOp.verify settingsAuthed 1 true (Response.ok goodBody),
        CacheOp.verify settingsAuthed 2 true (Response.notOk 401 [])]).authenticationStatus =
      AuthStatus.unauthenticated := by
  refine ⟨?_, by decide, rfl⟩
  intro h
  rw [show (runCacheOps [CacheOp.verify settingsAuthed 1 true (Response.ok goodBody),
      CacheOp.verify settingsAuthed 2 true (Response.notOk 401 [])]).availableModels
      = [cexModel] from rfl] at h
  exact List.cons_ne_nil _ _ h

/-- C3 (amended): in every reachable cache state, a non-empty cached model
list implies the status is not `unknown` (it may be `authenticated` or —
after a failed refresh that does not clear the models — `unauthenticated`). -/
theorem cache_models_nonempty_status_known (ops : List CacheOp)
    (h : (runCacheOps ops).availableModels ≠ []) :
    (runCacheOps ops).authenticationStatus ≠ AuthStatus.unknown := by
  suffices hgen : ∀ (ops : List CacheOp) (st : ServiceState),
      (st.availableModels ≠ [] → st.authenticationStatus ≠ AuthStatus.unknown) →
      ((ops.foldl applyCacheOp st).availableModels ≠ [] →
        (ops.foldl applyCacheOp st).authenticationStatus ≠ AuthStatus.unknown) by
    exact hgen ops initServiceState (fun hm => absurd rfl hm) h
  intro ops
  induction ops with
  | nil => intro st hst; exact hst
  | cons op ops ih =>
    intro st hst
    rw [List.foldl_cons]
    apply ih
    cases op with
    | clear => intro hm; exact absurd rfl hm
    | getModels => exact hst
    | getStatus => exact hst
    | verify settings now fr resp =>
      simp only [applyCacheOp]
      by_cases hk : settings.apiKey = []
      · rw [checkAuth_noKey st settings now fr resp hk]
        intro _
        simp
      · by_cases hc : usesCachedResult st settings now fr
        · rw [checkAuth_cached st settings now fr resp hk hc]
          exact hst
        · intro _
          rcases checkAuth_state_status_of_fetch st settings now fr resp hk hc with he | he <;>
            simp [he]

theorem cache_models_nonempty_status_known_witness :
    (runCacheOps [CacheOp.verify settingsAuthed 1 true (Response.ok goodBody)]).authenticationStatus ≠
      AuthStatus.unknown :=
  cache_models_nonempty_status_known
    [CacheOp.verify settingsAuthed 1 true (Response.ok goodBody)]
    (by intro h
        rw [show (runCacheOps [CacheOp.verify settingsAuthed 1 true
            (Response.ok goodBody)]).availableModels = [cexModel] from rfl] at h
        exact List.cons_ne_nil _ _ h)

/-! ### Readiness evaluator (C7) -/

/-- C7: one invocation of `quickSetupCheck` performs at most one
verification call, and with no API key configured it performs none and
reports not ready with all three needs flags set. -/
theorem quickSetupCheck_verification_calls (st : ServiceState) (settings : Settings)
    (now : Nat) (resp : Response) :
    (quickSetupCheck st settings now resp).2.2 ≤ 1 ∧
    (settings.apiKey = [] →
      (quickSetupCheck st settings now resp).2.2 = 0 ∧
      (quickSetupCheck st settings now resp).1.isReady = false ∧
      (quickSetupCheck st settings now resp).1.needsApiKey = true ∧
      (quickSetupCheck st settings now resp).1.needsAuthentication = true ∧
      (quickSetupCheck st settings now resp).1.needsModelSelection = true) := by
  constructor
  · unfold quickSetupCheck
    repeat' split
    all_goals simp
    all_goals repeat' split
    all_goals simp
  · intro h
    have he : settings.apiKey.isEmpty = true := by rw [h]; rfl
    unfold quickSetupCheck
    rw [if_pos he]
    exact ⟨rfl, rfl, rfl, rfl, rfl⟩

theorem quickSetupCheck_verification_calls_witness :
    (quickSetupCheck initServiceState settingsNoKey 0 (Response.notOk 500 [])).2.2 ≤ 1 ∧
    (quickSetupCheck initServiceState settingsNoKey 0 (Response.notOk 500 [])).2.2 = 0 ∧
    (quickSetupCheck initServiceState settingsNoKey 0
        (Response.notOk 500 [])).1.needsApiKey = true :=
  ⟨(quickSetupCheck_verification_calls initServiceState settingsNoKey 0
      (Response.notOk 500 [])).1,
   ((quickSetupCheck_verification_calls initServiceState settingsNoKey 0
      (Response.notOk 500 [])).2 rfl).1,
   ((quickSetupCheck_verification_calls initServiceState settingsNoKey 0
      (Response.notOk 500 [])).2 rfl).2.2.1⟩

/-! ### Cancellation registry (C8) -/

theorem getD_append_left {α : Type} (l t : List α) (i : Nat) (d : α)
    (h : i < l.length) : (l ++ t).getD i d = l.getD i d := by
  induction l generalizing i with
  | nil => simp at h
  | cons x xs ih =>
    cases i with
    | zero => rfl
    | succ j =>
      simp only [List.cons_append, List.getD_cons_succ]
      exact ih j (Nat.lt_of_succ_lt_succ h)

theorem getD_append_self {α : Type} (l : List α) (x d : α) :
    (l ++ [x]).getD l.length d = x := by
  induction l with
  | nil => rfl
  | cons y ys ih => simpa only [List.cons_append, List.getD_cons_succ] using ih

theorem set_oob {α : Type} (l : List α) (i : Nat) (a : α) (h : l.length ≤ i) :
    l.set i a = l := by
  induction l generalizing i with
  | nil => rfl
  | cons x xs ih =>
    cases i with
    | zero => simp at h
    | succ j =>
      simp only [List.set_cons_succ]
      rw [ih j (Nat.le_of_succ_le_succ h)]

theorem getD_set_ne {α : Type} (l : List α) (i j : Nat) (a : α) (d : α)
    (h : i ≠ j) : (l.set i a).getD j d = l.getD j d := by
  induction l generalizing i j with
  | nil => rfl
  | cons x xs ih =>
    cases i with
    | zero =>
      cases j with
      | zero => exact absurd rfl h
      | succ k => rfl
    | succ i' =>
      cases j with
      | zero => rfl
      | succ j' =>
        simp only [List.set_cons_succ, List.getD_cons_succ]
        exact ih i' j' (fun e => h (by rw [e]))

theorem getD_set_self_true (l : List Bool) (i : Nat) (h : i < l.length) :
    (l.set i true).getD i false = true := by
  induction l generalizing i with
  | nil => simp at h
  | cons x xs ih =>
    cases i with
    | zero => rfl
    | succ j =>
      simp only [List.set_cons_succ, List.getD_cons_succ]
      exact ih j (Nat.lt_of_succ_lt_succ h)

theorem getD_set_true_mono (l : List Bool) (i j : Nat)
    (h : l.getD j false = true) : (l.set i true).getD j false = true := by
  by_cases hij : i = j
  · subst hij
    by_cases hlen : i < l.length
    · exact getD_set_self_true l i hlen
    · rw [set_oob l i true (Nat.le_of_not_lt hlen)]
      exact h
  · rw [getD_set_ne l i j true false hij]
    exact h

theorem foldl_setTrue_length (rs : List Nat) (sig : List Bool) :
    (rs.foldl (fun s i => s.set i true) sig).length = sig.length := by
  induction rs generalizing sig with
  | nil => rfl
  | cons x rs ih =>
    rw [List.foldl_cons, ih]
    exact List.length_set sig x true

theorem foldl_setTrue_preserve (rs : List Nat) (sig : List Bool) (j : Nat)
    (h : sig.getD j false = true) :
    (rs.foldl (fun s i => s.set i true) sig).getD j false = true := by
  induction rs generalizing sig with
  | nil => exact h
  | cons x rs ih =>
    rw [List.foldl_cons]
    exact ih (sig.set x true) (getD_set_true_mono sig x j h)

theorem foldl_setTrue_mem (rs : List Nat) (sig : List Bool) (j : Nat)
    (hmem : j ∈ rs) (hlen : j < sig.length) :
    (rs.foldl (fun s i => s.set i true) sig).getD j false = true := by
  induction rs generalizing sig with
  | nil => cases hmem
  | cons x rs ih =>
    rw [List.foldl_cons]
    rcases List.mem_cons.mp hmem with he | hm
    · subst he
      exact foldl_setTrue_preserve rs (sig.set j true) j (getD_set_self_true sig j hlen)
    · exact ih (sig.set x true) hm (by rw [List.length_set]; exact hlen)

theorem regInv_init : RegInv initRegistry := by
  constructor
  · intro i hi; cases hi
  · intro i hi; simp [initRegistry] at hi

theorem regInv_step (st : RegistryState) (op : RegOp) (h : RegInv st) :
    RegInv (regStep st op) := by
  obtain ⟨hbound, hcover⟩ := h
  cases op with
  | register =>
    constructor
    · intro i hi
      simp only [regStep, getNewAbortController, List.length_append, List.length_cons,
        List.length_nil] at hi ⊢
      rcases List.mem_append.mp hi with hm | hm
      · exact Nat.lt_succ_of_lt (hbound i hm)
      · simp at hm
        subst hm
        exact Nat.lt_succ_self _
    · intro i hi
      simp only [regStep, getNewAbortController, List.length_append, List.length_cons,
        List.length_nil] at hi ⊢
      rcases Nat.lt_succ_iff_lt_or_eq.mp (by simpa using hi) with hlt | he
      · rcases hcover i hlt with hm | ht
        · exact Or.inl (List.mem_append_left _ hm)
        · refine Or.inr ?_
          rw [getD_append_left st.signals [false] i false hlt]
          exact ht
      · subst he
        exact Or.inl (List.mem_append_right _ (by simp))
  | cancelAll =>
    constructor
    · intro i hi; cases hi
    · intro i hi
      simp only [regStep, abortAll] at hi ⊢
      rw [foldl_setTrue_length] at hi
      refine Or.inr ?_
      rcases hcover i hi with hm | ht
      · exact foldl_setTrue_mem st.registry st.signals i hm (hbound i hm)
      · exact foldl_setTrue_preserve st.registry st.signals i ht

theorem regInv_run (ops : List RegOp) : RegInv (runRegOps ops) := by
  suffices hgen : ∀ (ops : List RegOp) (st : RegistryState), RegInv st →
      RegInv (ops.foldl regStep st) by
    exact hgen ops initRegistry regInv_init
  intro ops
  induction ops with
  | nil => intro st h; exact h
  | cons op ops ih =>
    intro st h
    rw [List.foldl_cons]
    exact ih (regStep st op) (regInv_step st op h)

/-- C8: after `cancelAll()` the registry collection is empty and the
cancellation signal of every previously registered handle (every handle
allocated by any prior sequence of register/cancelAll operations) is
triggered; and a fresh registration returns a handle whose signal is not
yet triggered. -/
theorem generationController_cancelAll_register (ops : List RegOp) :
    (abortAll (runRegOps ops)).registry = [] ∧
    (∀ i, i < (runRegOps ops).signals.length →
      (abortAll (runRegOps ops)).signals.getD i false = true) ∧
    (getNewAbortController (runRegOps ops)).1.signals.getD
      (getNewAbortController (runRegOps ops)).2 false = false := by
  refine ⟨rfl, ?_, ?_⟩
  · intro i hi
    have inv := regInv_run ops
    simp only [abortAll]
    rcases inv.2 i hi with hm | ht
    · exact foldl_setTrue_mem _ _ i hm hi
    · exact foldl_setTrue_preserve _ _ i ht
  · simp only [getNewAbortController]
    exact getD_append_self (runRegOps ops).signals false false

theorem generationController_cancelAll_register_witness :
    (abortAll (runRegOps [RegOp.register])).registry = [] ∧
    (abortAll (runRegOps [RegOp.register])).signals.getD 0 false = true ∧
    (getNewAbortController (runRegOps [RegOp.register])).1.signals.getD
      (getNewAbortController (runRegOps [RegOp.register])).2 false = false :=
  ⟨(generationController_cancelAll_register [RegOp.register]).1,
   (generationController_cancelAll_register [RegOp.register]).2.1 0 (by decide),
   (generationController_cancelAll_register [RegOp.register]).2.2⟩

/-! ### Fresh-copy accessor (C10) -/

/-- C10: `getAvailableModels` returns a reference to a freshly allocated
copy of the cached array: the returned reference is distinct from the
service's internal one, holds the same contents, and overwriting it leaves
the internal cached array — and hence the contents returned by a later
`getAvailableModels` — unchanged. -/
theorem getAvailableModels_fresh_copy (h : ModelHeap) (svc : ServiceRef)
    (hv : svc.modelsRef < h.length) :
    (getAvailableModels h svc).2 ≠ svc.modelsRef ∧
    heapGet (getAvailableModels h svc).1 (getAvailableModels h svc).2 =
      heapGet h svc.modelsRef ∧
    (∀ v, heapGet (heapWrite (getAvailableModels h svc).1 (getAvailableModels h svc).2 v)
        svc.modelsRef = heapGet h svc.modelsRef) ∧
    (∀ v,
      heapGet
        (getAvailableModels
          (heapWrite (getAvailableModels h svc).1 (getAvailableModels h svc).2 v) svc).1
        (getAvailableModels
          (heapWrite (getAvailableModels h svc).1 (getAvailableModels h svc).2 v) svc).2 =
      heapGet h svc.modelsRef) := by
  have hw : ∀ v, heapGet (heapWrite (getAvailableModels h svc).1
      (getAvailableModels h svc).2 v) svc.modelsRef = heapGet h svc.modelsRef := by
    intro v
    show ((h ++ [heapGet h svc.modelsRef]).set h.length v).getD svc.modelsRef [] = _
    rw [getD_set_ne _ h.length svc.modelsRef v [] (Nat.ne_of_gt hv)]
    exact getD_append_left h [heapGet h svc.modelsRef] svc.modelsRef [] hv
  refine ⟨Nat.ne_of_gt hv, ?_, hw, ?_⟩
  · exact getD_append_self h (heapGet h svc.modelsRef) []
  · intro v
    show (heapWrite (getAvailableModels h svc).1 (getAvailableModels h svc).2 v ++
        [heapGet (heapWrite (getAvailableModels h svc).1
          (getAvailableModels h svc).2 v) svc.modelsRef]).getD
        (heapWrite (getAvailableModels h svc).1 (getAvailableModels h svc).2 v).length [] =
      heapGet h svc.modelsRef
    rw [getD_append_self]
    exact hw v

theorem getAvailableModels_fresh_copy_witness :
    (getAvailableModels [[cexModel]] ⟨0⟩).2 ≠ (0 : Nat) ∧
    heapGet (getAvailableModels [[cexModel]] ⟨0⟩).1 (getAvailableModels [[cexModel]] ⟨0⟩).2 =
      heapGet [[cexModel]] 0 ∧
    heapGet (heapWrite (getAvailableModels [[cexModel]] ⟨0⟩).1
        (getAvailableModels [[cexModel]] ⟨0⟩).2 []) 0 = heapGet [[cexModel]] 0 :=
  ⟨(getAvailableModels_fresh_copy [[cexModel]] ⟨0⟩ (by decide)).1,
   (getAvailableModels_fresh_copy [[cexModel]] ⟨0⟩ (by decide)).2.1,
   (getAvailableModels_fresh_copy [[cexModel]] ⟨0⟩ (by decide)).2.2.1 []⟩
